import Mathlib

/-!
Shallow embedding of the travel-report core (src/main.py, src/main_new.py,
src/to_timesheet.py): banding and meal-reduction helpers, the waypoint
aggregator, the per-diem rule engine and the timesheet segment classifier.
Money and hour values are modelled as rationals; Python `round(x, 2)` is
modelled by `round2` (round-half-up at two decimals; no concrete value in
this development sits on a rounding tie, so the tie-breaking direction is
irrelevant to every theorem below).
-/

namespace TravelReport

/-- Models Python `round(x, 2)`. -/
def round2 (x : ℚ) : ℚ := (⌊x * 100 + 1 / 2⌋ : ℚ) / 100

/-- Minutes since midnight of an `HHMM` numeral, as parsed by
`datetime.strptime(.. "%H%M")` on a zero-padded four-digit time. -/
def hmMin (t : Nat) : Nat := (t / 100) * 60 + t % 100

/-- Whitespace trimming at the character level (Python `str.strip()`). -/
def trimChars (l : List Char) : List Char :=
  ((l.dropWhile Char.isWhitespace).reverse.dropWhile Char.isWhitespace).reverse

/-- Country normalisation `(s or "").strip().upper()` used across the sources. -/
def normC (s : String) : String := String.mk ((trimChars s.data).map Char.toUpper)

/-- Transition-marker normalisation `(s or "").strip().lower()`. -/
def normNext (s : String) : String := String.mk ((trimChars s.data).map Char.toLower)

/-- `cz_band` from src/main.py lines 39-46 (identical in src/main_new.py). -/
def cz_band (hours : ℚ) : Option String :=
  if hours < 5 then none
  else if hours < 12 then some "5_to_12"
  else if hours < 18 then some "12_to_18"
  else some "over_18"

/-- `foreign_band` from src/main.py lines 49-57 (identical in src/main_new.py). -/
def foreign_band (hours : ℚ) : Option String :=
  if hours < 1 then none
  else if hours < 12 then some "1_to_12"
  else if hours < 18 then some "12_to_18"
  else some "over_18"

/-- `apply_meal_reduction` from src/main.py lines 60-65 (identical in
src/main_new.py lines 42-46): reduce by `pct_per_meal * meals` percent,
capping the factor at 0. -/
def apply_meal_reduction (base_amount pct_per_meal : ℚ) (meals : ℕ) : ℚ :=
  let factor := 1 - (meals : ℚ) * (pct_per_meal / 100)
  let factor := if factor < 0 then 0 else factor
  base_amount * factor

/-!
## Per-Diem Rule Engine (src/main.py, per-diem day loop, lines 158-305)

One day's input is its list of per-country accumulated segments
(`day["segments"]`); the engine's foreign part produces either a
`ForeignEntry` (possibly a blocked / under-1 placeholder), no entry
(no foreign segment that day), or raises a missing-configuration error.
-/

/-- A per-day per-country accumulated segment
(`{"country": .., "time_hours": .., "meals": ..}`). -/
structure CSeg where
  country : String
  time_hours : ℚ
  meals : ℕ
deriving Repr, DecidableEq

/-- The two fatal `KeyError`s raised by the foreign per-diem computation
(src/main.py lines 238-240 and 276-279). -/
inductive PDError where
  | missingRateConfig (country : String)
  | missingExchangeRate (currency : String)
deriving Repr, DecidableEq

/-- A foreign per-diem entry; the fields mirror the keys of the dicts
appended to `day["per_diem"]` for the foreign country
(src/main.py lines 213-226, 247-260, 283-296). -/
structure ForeignEntry where
  country : String
  currency : Option String
  band : String
  base_rate : Option ℚ
  percent : ℚ
  base : ℚ
  foreign_hours_total : ℚ
  meals : ℕ
  reduction_percent_per_meal : Option ℚ
  amount : ℚ
  amount_czk : ℚ
  exchange_rate_to_czk : Option ℚ
deriving Repr, DecidableEq

/-- The injected configuration used by the foreign computation:
`foreign_rates` (country ↦ (rate, currency), built from settings keys like
`"PL_eur"`), `foreign_percents` and `foreign_meal_reduce` (band ↦ percent;
total maps, the settings hold every band key, and `foreign_meal_reduce`
uses `.get(band, 0)`), and `rates_czk` (currency ↦ CZK rate, from the
input's `bank_rates`). -/
structure RateCfg where
  foreign_rates : String → Option (ℚ × String)
  foreign_percents : String → ℚ
  foreign_meal_reduce : String → ℚ
  rates_czk : String → Option ℚ

/-- `cz_hours` of a day (src/main.py lines 163-164): the `"CZ"` segment's
hours, `0.0` when absent. -/
def czHoursOf (segs : List CSeg) : ℚ :=
  match segs.find? (fun s => s.country == "CZ") with
  | some s => s.time_hours
  | none => 0

/-- `foreign_segs` (src/main.py line 201). -/
def foreignSegsOf (segs : List CSeg) : List CSeg :=
  segs.filter (fun s => s.country != "CZ")

/-- `total_foreign_hours` (src/main.py lines 206-207). -/
def totalForeignHours (segs : List CSeg) : ℚ :=
  ((foreignSegsOf segs).map (·.time_hours)).sum

/-- `total_foreign_meals` (src/main.py lines 208-209). -/
def totalForeignMeals (segs : List CSeg) : ℕ :=
  ((foreignSegsOf segs).map (·.meals)).sum

/-- `max(foreign_segs, key=time_hours)` (src/main.py lines 234-235);
Python's `max` keeps the first element among ties. -/
def dominant (l : List CSeg) : Option CSeg :=
  match l with
  | [] => none
  | s :: rest =>
      some (rest.foldl (fun acc x => if acc.time_hours < x.time_hours then x else acc) s)

/-- The entitlement-blocked placeholder entry (src/main.py lines 213-226). -/
def blockedEntry (segs : List CSeg) : ForeignEntry :=
  { country := "FOREIGN", currency := none, band := "blocked_cz>=5_foreign<5",
    base_rate := none, percent := 0, base := 0,
    foreign_hours_total := round2 (totalForeignHours segs),
    meals := totalForeignMeals segs, reduction_percent_per_meal := none,
    amount := 0, amount_czk := 0, exchange_rate_to_czk := none }

/-- The under-one-hour placeholder entry (src/main.py lines 247-260). -/
def under1Entry (country cur : String) (rate : ℚ) (segs : List CSeg) : ForeignEntry :=
  { country := country, currency := some cur, band := "under_1",
    base_rate := some rate, percent := 0, base := 0,
    foreign_hours_total := round2 (totalForeignHours segs),
    meals := totalForeignMeals segs, reduction_percent_per_meal := none,
    amount := 0, amount_czk := 0, exchange_rate_to_czk := none }

/-- The fully computed foreign entry (src/main.py lines 266-296):
`base = rate * percent/100`, meal reduction, rounding, then conversion
`amount_czk = round(amount * rates_czk[cur], 2)`. -/
def computedEntry (cfg : RateCfg) (country cur : String) (rate : ℚ) (bandk : String)
    (fx : ℚ) (segs : List CSeg) : ForeignEntry :=
  { country := country, currency := some cur, band := bandk,
    base_rate := some rate, percent := cfg.foreign_percents bandk,
    base := round2 (rate * (cfg.foreign_percents bandk / 100)),
    foreign_hours_total := round2 (totalForeignHours segs),
    meals := totalForeignMeals segs,
    reduction_percent_per_meal := some (cfg.foreign_meal_reduce bandk),
    amount := round2 (apply_meal_reduction (rate * (cfg.foreign_percents bandk / 100))
      (cfg.foreign_meal_reduce bandk) (totalForeignMeals segs)),
    amount_czk := round2 (round2 (apply_meal_reduction
      (rate * (cfg.foreign_percents bandk / 100))
      (cfg.foreign_meal_reduce bandk) (totalForeignMeals segs)) * fx),
    exchange_rate_to_czk := some fx }

/-- The foreign half of the per-diem day loop (src/main.py lines 200-305):
skip when no foreign segment; entitlement block when `cz_hours >= 5` and
`total_foreign_hours < 5`; otherwise select the dominant foreign country,
fail if it has no configured rate, emit the under-1 placeholder when the
band is `None`, fail if the currency has no exchange rate, else emit the
computed and converted entry. -/
def foreignResult (cfg : RateCfg) (segs : List CSeg) :
    Except PDError (Option ForeignEntry) :=
  if foreignSegsOf segs = [] then .ok none
  else if 5 ≤ czHoursOf segs ∧ totalForeignHours segs < 5 then
    .ok (some (blockedEntry segs))
  else
    match dominant (foreignSegsOf segs) with
    | none => .ok none
    | some dom =>
      match cfg.foreign_rates dom.country with
      | none => .error (.missingRateConfig dom.country)
      | some rc =>
        match foreign_band (totalForeignHours segs) with
        | none => .ok (some (under1Entry dom.country rc.2 rc.1 segs))
        | some bandk =>
          match cfg.rates_czk rc.2 with
          | none => .error (.missingExchangeRate rc.2)
          | some fx => .ok (some (computedEntry cfg dom.country rc.2 rc.1 bandk fx segs))

/-- Concrete configuration used in the C1/C7 example days. -/
def exCfg : RateCfg :=
  { foreign_rates := fun c => if c = "DE" then some (45, "EUR") else none,
    foreign_percents := fun b => if b = "1_to_12" then 66 else 100,
    foreign_meal_reduce := fun b => if b = "1_to_12" then 35 else 25,
    rates_czk := fun c => if c = "EUR" then some 25
      else if c = "CZK" then some 1 else none }

/-- Example day for C1: CZ 6 h, DE 3 h (entitlement block fires). -/
def exSegsC1 : List CSeg := [⟨"CZ", 6, 0⟩, ⟨"DE", 3, 1⟩]

/-- Example day for C7: CZ 8 h, DE 12 h (full foreign computation). -/
def exSegsC7 : List CSeg := [⟨"CZ", 8, 0⟩, ⟨"DE", 12, 0⟩]

/-!
## Waypoint Aggregator (src/main_new.py, `build_trip_from_waypoints`)
-/

/-- One itinerary waypoint; `time` holds the `HHMM` value as a number,
`km` is the distance attached to an arrival waypoint, `r_d` the R&D
percentage attached to a meeting's start waypoint. -/
structure Waypoint where
  time : Nat
  place : String
  country : String
  meals : ℕ
  next : String
  km : ℕ
  r_d : ℕ
deriving Repr, DecidableEq

/-- Duration in hours of one consecutive waypoint pair
(src/main_new.py lines 99-109): parse both `HHMM` times on the day's date,
advance the end by one day when it precedes the start (`timedelta(days=1)`,
i.e. +1440 minutes), clamp a negative duration to 0. -/
def pairHours (aT bT : Nat) : ℚ :=
  let a := hmMin aT
  let b := hmMin bT
  let b2 := if b < a then b + 1440 else b
  let h : ℚ := ((b2 : ℚ) - (a : ℚ)) / 60
  if h < 0 then 0 else h

/-- Accumulated meals of a country for one day (src/main_new.py lines 81-87):
every waypoint with a non-empty normalised country contributes its meals. -/
def dayMeals (wps : List Waypoint) (c : String) : ℕ :=
  ((wps.filter (fun w => normC w.country == c && normC w.country != "")).map
    (·.meals)).sum

/-- Accumulated time of a country for one day (src/main_new.py lines 90-114):
each consecutive pair `(w[i], w[i+1])` contributes `pairHours` to
`w[i].country` — with no condition on `w[i].next`. -/
def dayTimeHours : List Waypoint → String → ℚ
  | w :: x :: rest, c =>
      (if normC w.country = c ∧ normC w.country ≠ "" then pairHours w.time x.time else 0) +
        dayTimeHours (x :: rest) c
  | _, _ => 0

/-- Follows the spec's words for claim C2, for comparison with the code's
`dayTimeHours`: a pair contributes only when `w[i].next` is a continuation
transition, i.e. neither `"end"` nor `"endtrip"`. -/
def dayTimeHoursSpecContinuation : List Waypoint → String → ℚ
  | w :: x :: rest, c =>
      (if normC w.country = c ∧ normC w.country ≠ "" ∧
          normNext w.next ≠ "end" ∧ normNext w.next ≠ "endtrip" then
        pairHours w.time x.time
      else 0) +
        dayTimeHoursSpecContinuation (x :: rest) c
  | _, _ => 0

/-- First-occurrence deduplication: the key order of a Python dict built by
repeated `setdefault` insertions. -/
def firstDedup {α : Type} [BEq α] : List α → List α
  | [] => []
  | a :: l => a :: (firstDedup l).filter (fun x => x != a)

/-- The day's aggregated country keys, in dict insertion order: every
waypoint's non-empty normalised country, first occurrence first
(the meals loop, src/main_new.py lines 81-87, inserts every such country;
the time loop adds none that is not already present). -/
def dayCountries (wps : List Waypoint) : List String :=
  firstDedup ((wps.map (fun w => normC w.country)).filter (fun c => c != ""))

/-- One day's `agg.values()`: a CountrySegment per distinct country. -/
def dayAgg (wps : List Waypoint) : List CSeg :=
  (dayCountries wps).map fun c => ⟨c, dayTimeHours wps c, dayMeals wps c⟩

/-- A day of the trip overview (`{"date": .., "segments": [..]}`),
with the day identified by its MMDD key. -/
structure TripDay where
  mmdd : Nat
  segments : List CSeg
deriving Repr, DecidableEq

/-- `build_trip_from_waypoints` (src/main_new.py lines 48-119): the day keys
sorted numerically, days with an empty waypoint list skipped, each remaining
day aggregated per country. -/
def build_trip_from_waypoints (days : List (Nat × List Waypoint)) : List TripDay :=
  (days.mergeSort (fun a b => decide (a.1 ≤ b.1))).foldr
    (fun d acc => if d.2 = [] then acc else ⟨d.1, dayAgg d.2⟩ :: acc) []

/-- Example pair for C2: the first waypoint carries the terminal marker
`"end"`, yet its 2-hour pair duration is accumulated on CZ. -/
def exW0 : Waypoint :=
  { time := 800, place := "Praha", country := "CZ", meals := 0, next := "end",
    km := 0, r_d := 0 }

/-- Arrival waypoint of the C2 example pair. -/
def exW1 : Waypoint :=
  { time := 1000, place := "Dresden", country := "DE", meals := 0, next := "",
    km := 0, r_d := 0 }

/-!
## Timesheet segment builder (src/to_timesheet.py, `build_segments`)
-/

/-- One built timeline segment; the fields mirror the dicts produced by
`build_segments` (src/to_timesheet.py lines 48-61), with the day kept as its
numeric MMDD key and times as numeric HHMM values. -/
structure Seg where
  mmdd : Nat
  start_hhmm : Nat
  end_hhmm : Nat
  type : String
  country : String
  place_from : String
  place_to : String
  minutes : ℕ
  km : ℕ
  rd : ℕ
deriving Repr, DecidableEq, Inhabited

/-- Minutes of one hop (src/to_timesheet.py lines 89-96 and 133-140 on the
successful path): if the end time precedes the start time the end is pushed
to the next day (+1440 minutes), and a negative result is clamped to 0.
(The calendar-failure mode of this rollover — `b.replace(day=b.day + 1)`
raising on the last day of a month — is modelled separately by
`tsSegMinutesOnDate` for claim C9.) -/
def segMinutes (aT bT : Nat) : ℕ :=
  let a := hmMin aT
  let b := hmMin bT
  let b2 := if b < a then b + 1440 else b
  let m : ℤ := (b2 : ℤ) - (a : ℤ)
  if m < 0 then 0 else m.toNat

/-- The inner drive-collapsing loop of `build_segments`
(src/to_timesheet.py lines 114-156), started at a waypoint `w` whose marker
is `"drive"`, over the remaining waypoints: returns the accumulated
`(total_minutes, total_km, last_arrival, resume-list)`, where the resume
list is where the outer loop continues (`i = j + 1`, i.e. at the last
arrival waypoint). -/
def collapse (w : Waypoint) : List Waypoint → ℕ × ℕ × Waypoint × List Waypoint
  | [] => (0, 0, w, [])
  | x :: rest =>
    let m := segMinutes w.time x.time
    if normNext x.next = "drive" then
      match rest with
      | [] => (m, x.km, x, [])
      | y :: rest' =>
        let r := collapse x (y :: rest')
        (m + r.1, x.km + r.2.1, r.2.2.1, r.2.2.2)
    else
      (m, x.km, x, x :: rest)

theorem collapse_rem_length (w : Waypoint) (l : List Waypoint) :
    (collapse w l).2.2.2.length ≤ l.length := by
  induction l generalizing w with
  | nil => simp [collapse]
  | cons x rest ih =>
    rw [collapse.eq_def]
    simp only
    by_cases h : normNext x.next = "drive"
    · rw [if_pos h]
      cases rest with
      | nil => simp
      | cons y rest' =>
        simp only
        exact le_trans (ih x) (by simp)
    · rw [if_neg h]

/-- The meeting segment emitted for a pair (src/to_timesheet.py lines 98-110). -/
def mkMeetingSeg (mmdd : Nat) (cur nxt : Waypoint) : Seg :=
  { mmdd := mmdd, start_hhmm := cur.time, end_hhmm := nxt.time,
    type := "meeting", country := normC cur.country,
    place_from := cur.place, place_to := nxt.place,
    minutes := segMinutes cur.time nxt.time, km := 0, rd := cur.r_d }

/-- The collapsed drive segment emitted for a run
(src/to_timesheet.py lines 158-170). -/
def mkDriveSeg (mmdd : Nat) (first last : Waypoint) (mins km : ℕ) : Seg :=
  { mmdd := mmdd, start_hhmm := first.time, end_hhmm := last.time,
    type := "drive", country := normC last.country,
    place_from := first.place, place_to := last.place,
    minutes := mins, km := km, rd := 0 }

/-- The per-day `while i < len(wps) - 1` loop of `build_segments`
(src/to_timesheet.py lines 77-172): a `"meeting"` marker emits one meeting
segment and advances one step; a `"drive"` marker collapses the maximal
drive run and resumes at its last arrival; any other marker advances one
step without emitting. -/
def buildDayAux (mmdd : Nat) : List Waypoint → List Seg
  | [] => []
  | [_] => []
  | w :: x :: rest =>
    if normNext w.next = "meeting" then
      mkMeetingSeg mmdd w x :: buildDayAux mmdd (x :: rest)
    else if normNext w.next = "drive" then
      let r := collapse w (x :: rest)
      mkDriveSeg mmdd w r.2.2.1 r.1 r.2.1 :: buildDayAux mmdd r.2.2.2
    else
      buildDayAux mmdd (x :: rest)
termination_by l => l.length
decreasing_by
  · simp
  · have := collapse_rem_length w (x :: rest)
    simp only [List.length_cons] at this ⊢
    omega
  · simp

/-- `build_segments` (src/to_timesheet.py lines 43-174): day keys sorted
numerically, days with fewer than 2 waypoints skipped, the remaining days'
segments concatenated in order. -/
def build_segments (days : List (Nat × List Waypoint)) : List Seg :=
  (days.mergeSort (fun a b => decide (a.1 ≤ b.1))).foldr
    (fun d acc => (if d.2.length < 2 then [] else buildDayAux d.1 d.2) ++ acc) []

/-- Sum of the per-hop durations along a chain of waypoints. -/
def chainMinutes : List Waypoint → ℕ
  | a :: b :: r => segMinutes a.time b.time + chainMinutes (b :: r)
  | _ => 0

/-- Sum of the arrival-waypoint `km` values along a chain of waypoints. -/
def chainKm : List Waypoint → ℕ
  | _ :: b :: r => b.km + chainKm (b :: r)
  | _ => 0

/-!
## Timesheet classification and R&D rows (src/to_timesheet.py, `fill_timesheet`)
-/

/-- `key(mmdd, hhmm) = int(mmdd) * 10000 + int(hhmm)`
(src/to_timesheet.py lines 216-217), the chronological sort key. -/
def key (mmdd hhmm : Nat) : Nat := mmdd * 10000 + hhmm

/-- `find_first_meeting_start` (src/to_timesheet.py lines 177-181), as a key. -/
def firstMeetKey (segs : List Seg) : Option Nat :=
  (segs.find? (fun s => s.type == "meeting")).map fun s => key s.mmdd s.start_hhmm

/-- `find_last_meeting_end` (src/to_timesheet.py lines 184-189), as a key. -/
def lastMeetKey (segs : List Seg) : Option Nat :=
  ((segs.filter (fun s => s.type == "meeting")).getLast?).map fun s => key s.mmdd s.end_hhmm

/-- `travel_there` (src/to_timesheet.py lines 226-231): drive segments whose
end key is at-or-before the first meeting's start key. -/
def travel_there (segs : List Seg) : List Seg :=
  segs.filter fun s =>
    s.type == "drive" &&
      match firstMeetKey segs with
      | some k => decide (key s.mmdd s.end_hhmm ≤ k)
      | none => false

/-- `travel_home` (src/to_timesheet.py lines 226-234): drive segments whose
start key is at-or-after the last meeting's end key. -/
def travel_home (segs : List Seg) : List Seg :=
  segs.filter fun s =>
    s.type == "drive" &&
      match lastMeetKey segs with
      | some k => decide (k ≤ key s.mmdd s.start_hhmm)
      | none => false

/-- The identity tuple used for `used_keys`
(src/to_timesheet.py line 268): `(mmdd, start, end, type)`. -/
def tupleOf (s : Seg) : Nat × Nat × Nat × String :=
  (s.mmdd, s.start_hhmm, s.end_hhmm, s.type)

/-- The unsorted detailed group (src/to_timesheet.py lines 268-272): segments
whose identity tuple is not among the classified travel segments' tuples. -/
def detailedUnsorted (segs : List Seg) : List Seg :=
  segs.filter fun s =>
    !((travel_there segs ++ travel_home segs).any fun t => decide (tupleOf t = tupleOf s))

/-- The detailed group sorted chronologically
(src/to_timesheet.py line 275; Python `sort` is stable ascending). -/
def detailed (segs : List Seg) : List Seg :=
  (detailedUnsorted segs).mergeSort fun a b =>
    decide (key a.mmdd a.start_hhmm ≤ key b.mmdd b.start_hhmm)

/-- The reverse walk assigning each detailed drive segment the next
chronological meeting's R&D percent (src/to_timesheet.py lines 281-287);
returns the rewritten list and the carried `next_meeting_rd`. -/
def assignRdAux : List Seg → List Seg × ℕ
  | [] => ([], 0)
  | s :: rest =>
    let r := assignRdAux rest
    if s.type == "meeting" then (s :: r.1, s.rd)
    else if s.type == "drive" then ({ s with rd := r.2 } :: r.1, r.2)
    else (s :: r.1, r.2)

/-- The detailed group after the R&D assignment pass. -/
def detailedRd (segs : List Seg) : List Seg := (assignRdAux (detailed segs)).1

/-- `second_total_minutes` (src/to_timesheet.py line 311). -/
def secondTotalMinutes (segs : List Seg) : ℕ :=
  ((detailedRd segs).map (·.minutes)).sum

/-- `second_total_rd_minutes` (src/to_timesheet.py lines 312-318):
`Σ minutes * rd / 100` over the detailed group, rounded once. -/
def secondTotalRdMinutes (segs : List Seg) : ℚ :=
  round2 (((detailedRd segs).map (fun s => (s.minutes : ℚ) * s.rd / 100)).sum)

/-- `avg_rd_pct` (src/to_timesheet.py lines 323-326): the R&D percentage
written on every travel-there / travel-home row. -/
def avgRdPct (segs : List Seg) : ℚ :=
  if 0 < secondTotalMinutes segs then
    round2 (secondTotalRdMinutes segs / (secondTotalMinutes segs : ℚ) * 100)
  else 0

/-- One aggregated travel day (`aggregate_daily` output,
src/to_timesheet.py lines 237-255). -/
structure DayRow where
  mmdd : Nat
  start_hhmm : Nat
  end_hhmm : Nat
  minutes : ℕ
  km : ℕ
deriving Repr, DecidableEq, Inhabited

/-- `aggregate_daily` (src/to_timesheet.py lines 237-255): group the
classified travel segments by day, one row per day in numeric day order,
items sorted by start time; sum minutes and km, keep earliest start and
latest end. -/
def aggregate_daily (l : List Seg) : List DayRow :=
  ((firstDedup (l.map (·.mmdd))).mergeSort (fun a b => decide (a ≤ b))).map fun d =>
    let items := (l.filter (fun s => s.mmdd == d)).mergeSort
      (fun a b => decide (a.start_hhmm ≤ b.start_hhmm))
    { mmdd := d,
      start_hhmm := (items.headD default).start_hhmm,
      end_hhmm := (items.getLastD default).end_hhmm,
      minutes := (items.map (·.minutes)).sum,
      km := (items.map (·.km)).sum }

/-- One written timesheet row (`write_row`, src/to_timesheet.py
lines 292-306); cell E holds `round(rd_pct, 2)`, cell F
`round(minutes * rd_pct / 100, 2)` (the two descriptive text cells are
presentation only and omitted). -/
structure Row where
  mmdd : Nat
  start_hhmm : Nat
  end_hhmm : Nat
  rd_pct : ℚ
  rd_minutes : ℚ
  minutes : ℕ
  km : ℕ
deriving Repr, DecidableEq

/-- `write_row` applied to an aggregated travel day. -/
def write_row (rd_pct : ℚ) (d : DayRow) : Row :=
  { mmdd := d.mmdd, start_hhmm := d.start_hhmm, end_hhmm := d.end_hhmm,
    rd_pct := round2 rd_pct,
    rd_minutes := round2 ((d.minutes : ℚ) * (rd_pct / 100)),
    minutes := d.minutes, km := d.km }

/-- `there_days` (src/to_timesheet.py line 257). -/
def there_days (segs : List Seg) : List DayRow := aggregate_daily (travel_there segs)

/-- `home_days` (src/to_timesheet.py line 258). -/
def home_days (segs : List Seg) : List DayRow := aggregate_daily (travel_home segs)

/-- The travel-there and travel-home rows as written
(src/to_timesheet.py lines 334-360): every one carries `avg_rd_pct`. -/
def travelRows (segs : List Seg) : List Row :=
  (there_days segs ++ home_days segs).map (write_row (avgRdPct segs))

/-- Follows the spec's words for claim C3, for comparison with the code's
`avgRdPct`: the time-weighted average R&D percentage over the trip's meeting
segments only, `Σ meeting_minutes * rd / Σ meeting_minutes`, 0 without
meeting minutes. -/
def specMeetingWeightedRdPct (segs : List Seg) : ℚ :=
  let ms := segs.filter (fun s => s.type == "meeting")
  let tot : ℚ := ((ms.map (·.minutes)).sum : ℕ)
  if tot = 0 then 0 else ((ms.map (fun s => (s.minutes : ℚ) * s.rd)).sum) / tot

/-!
## Calendar model for the rollover (claim C9)
-/

/-- A Gregorian calendar date. -/
structure Date where
  year : Nat
  month : Nat
  day : Nat
deriving Repr, DecidableEq

/-- Gregorian leap-year rule. -/
def isLeapYear (y : Nat) : Bool := (y % 4 == 0 && y % 100 != 0) || y % 400 == 0

/-- Number of days of a month. -/
def daysInMonth (y m : Nat) : Nat :=
  if m = 2 then (if isLeapYear y then 29 else 28)
  else if m = 4 ∨ m = 6 ∨ m = 9 ∨ m = 11 then 30
  else 31

/-- Python `datetime.replace(day=nd)`: `none` models the `ValueError` raised
when `nd` is not a valid day of the date's current month. -/
def replaceDay (d : Date) (nd : Nat) : Option Date :=
  if 1 ≤ nd ∧ nd ≤ daysInMonth d.year d.month then some { d with day := nd }
  else none

/-- The to_timesheet hop-minutes computation on a real calendar date
(src/to_timesheet.py lines 89-96 / 133-140): when the end time precedes the
start time the end instant is `b.replace(day=b.day + 1)` — which raises
(`none`) whenever the date is the last day of its month; otherwise the
minutes difference, clamped at 0. -/
def tsSegMinutesOnDate (d : Date) (aT bT : Nat) : Option ℕ :=
  let a := hmMin aT
  let b := hmMin bT
  if b < a then
    match replaceDay d (d.day + 1) with
    | none => none
    | some _ =>
      let m : ℤ := (b : ℤ) + 1440 - (a : ℤ)
      some (if m < 0 then 0 else m.toNat)
  else some (b - a)

/-- Example trip segments for claim C3 (as `build_segments` produces them for
a one-day trip `drive, meeting rd=100, drive, meeting rd=0`, each segment
60 minutes): the inter-meeting drive keeps the travel rows' average away
from the meetings-only weighted average. -/
def exSegsC3 : List Seg :=
  [{ mmdd := 110, start_hhmm := 700, end_hhmm := 800, type := "drive",
     country := "CZ", place_from := "Home", place_to := "A", minutes := 60,
     km := 50, rd := 0 },
   { mmdd := 110, start_hhmm := 800, end_hhmm := 900, type := "meeting",
     country := "CZ", place_from := "A", place_to := "A", minutes := 60,
     km := 0, rd := 100 },
   { mmdd := 110, start_hhmm := 900, end_hhmm := 1000, type := "drive",
     country := "CZ", place_from := "A", place_to := "B", minutes := 60,
     km := 60, rd := 0 },
   { mmdd := 110, start_hhmm := 1000, end_hhmm := 1100, type := "meeting",
     country := "CZ", place_from := "B", place_to := "B", minutes := 60,
     km := 0, rd := 0 }]

end TravelReport

namespace TravelReport

/-- C5: the domestic banding function partitions `[0, ∞)` into the half-open
intervals `[0,5) ↦ none`, `[5,12) ↦ "5_to_12"`, `[12,18) ↦ "12_to_18"`,
`[18,∞) ↦ "over_18"`, with the boundary values 5, 12, 18 in the upper band,
and the foreign banding function likewise partitions at 1, 12 and 18. -/
theorem C5_banding (h : ℚ) (h0 : 0 ≤ h) :
    (cz_band h = none ↔ h < 5) ∧
    (cz_band h = some "5_to_12" ↔ 5 ≤ h ∧ h < 12) ∧
    (cz_band h = some "12_to_18" ↔ 12 ≤ h ∧ h < 18) ∧
    (cz_band h = some "over_18" ↔ 18 ≤ h) ∧
    (foreign_band h = none ↔ h < 1) ∧
    (foreign_band h = some "1_to_12" ↔ 1 ≤ h ∧ h < 12) ∧
    (foreign_band h = some "12_to_18" ↔ 12 ≤ h ∧ h < 18) ∧
    (foreign_band h = some "over_18" ↔ 18 ≤ h) := by
  unfold cz_band foreign_band
  refine ⟨?_, ?_, ?_, ?_, ?_, ?_, ?_, ?_⟩ <;>
    split_ifs <;> simp_all <;>
      first
        | linarith
        | (constructor <;> intro hc <;> linarith)
        | (intro hc <;> linarith)

/-- Witness for `C5_banding` at the boundary value `h = 5`. -/
theorem C5_banding_witness :
    (0 : ℚ) ≤ 5 ∧
    ((cz_band 5 = none ↔ (5 : ℚ) < 5) ∧
     (cz_band 5 = some "5_to_12" ↔ (5 : ℚ) ≤ 5 ∧ (5 : ℚ) < 12) ∧
     (cz_band 5 = some "12_to_18" ↔ (12 : ℚ) ≤ 5 ∧ (5 : ℚ) < 18) ∧
     (cz_band 5 = some "over_18" ↔ (18 : ℚ) ≤ 5) ∧
     (foreign_band 5 = none ↔ (5 : ℚ) < 1) ∧
     (foreign_band 5 = some "1_to_12" ↔ (1 : ℚ) ≤ 5 ∧ (5 : ℚ) < 12) ∧
     (foreign_band 5 = some "12_to_18" ↔ (12 : ℚ) ≤ 5 ∧ (5 : ℚ) < 18) ∧
     (foreign_band 5 = some "over_18" ↔ (18 : ℚ) ≤ 5)) :=
  ⟨by norm_num, C5_banding 5 (by norm_num)⟩

/-- C6: `apply_meal_reduction` is monotonically non-increasing in the meal
count, never negative for a non-negative base and percentage, and is the
identity on the base at zero meals. -/
theorem C6_meal_reduction (base pct : ℚ) (m m' : ℕ)
    (hb : 0 ≤ base) (hp : 0 ≤ pct) (hm : m ≤ m') :
    apply_meal_reduction base pct m' ≤ apply_meal_reduction base pct m ∧
    0 ≤ apply_meal_reduction base pct m ∧
    apply_meal_reduction base pct 0 = base := by
  unfold apply_meal_reduction
  have hcast : (m : ℚ) ≤ (m' : ℚ) := by exact_mod_cast hm
  have hfac : (m : ℚ) * (pct / 100) ≤ (m' : ℚ) * (pct / 100) := by
    apply mul_le_mul_of_nonneg_right hcast
    positivity
  refine ⟨?_, ?_, ?_⟩
  · simp only
    split_ifs with h1 h2 <;> nlinarith
  · simp only
    split_ifs with h1 <;> nlinarith
  · simp

/-- Witness for `C6_meal_reduction` at `base = 200`, `pct = 25`, meals 1 ≤ 3. -/
theorem C6_meal_reduction_witness :
    ((0 : ℚ) ≤ 200 ∧ (0 : ℚ) ≤ 25 ∧ 1 ≤ 3) ∧
    (apply_meal_reduction 200 25 3 ≤ apply_meal_reduction 200 25 1 ∧
     0 ≤ apply_meal_reduction 200 25 1 ∧
     apply_meal_reduction 200 25 0 = 200) :=
  ⟨⟨by norm_num, by norm_num, by norm_num⟩,
   C6_meal_reduction 200 25 1 3 (by norm_num) (by norm_num) (by norm_num)⟩

/-- C1 counterexample: on a day with CZ 6 h and DE 3 h the engine does emit a
zero foreign placeholder without any further computation or error, but its
band value is the string `"blocked_cz>=5_foreign<5"`, not `"blocked"` as the
claim states. -/
theorem C1_counterexample :
    foreignResult exCfg exSegsC1 = .ok (some (blockedEntry exSegsC1)) ∧
    (blockedEntry exSegsC1).amount = 0 ∧
    (blockedEntry exSegsC1).amount_czk = 0 ∧
    (blockedEntry exSegsC1).band = "blocked_cz>=5_foreign<5" ∧
    (blockedEntry exSegsC1).band ≠ "blocked" := by
  refine ⟨?_, rfl, rfl, rfl, by decide⟩
  have hf : foreignSegsOf exSegsC1 = [⟨"DE", 3, 1⟩] := rfl
  have hcz : czHoursOf exSegsC1 = 6 := rfl
  have htf : totalForeignHours exSegsC1 = 3 := by
    norm_num [totalForeignHours, hf]
  unfold foreignResult
  rw [if_neg (by rw [hf]; simp), if_pos ⟨by rw [hcz]; norm_num, by rw [htf]; norm_num⟩]

/-- C1 (amended): for every day with at least one foreign segment, if the
domestic CZ hours are ≥ 5 and the total foreign hours are < 5, the engine
emits a zero foreign placeholder whose band is the blocked marker
`"blocked_cz>=5_foreign<5"`, with amount 0 and home-currency amount 0, and
performs no further foreign computation for that day — in particular the
result is `ok`, never a missing-rate-config or missing-exchange-rate error,
for every rate configuration. -/
theorem C1_entitlement_block (cfg : RateCfg) (segs : List CSeg)
    (h5 : 5 ≤ czHoursOf segs) (hne : foreignSegsOf segs ≠ [])
    (hf5 : totalForeignHours segs < 5) :
    foreignResult cfg segs = .ok (some (blockedEntry segs)) ∧
    (blockedEntry segs).band = "blocked_cz>=5_foreign<5" ∧
    (blockedEntry segs).amount = 0 ∧
    (blockedEntry segs).amount_czk = 0 := by
  refine ⟨?_, rfl, rfl, rfl⟩
  unfold foreignResult
  rw [if_neg hne, if_pos ⟨h5, hf5⟩]

/-- Witness for `C1_entitlement_block` on the concrete day CZ 6 h / DE 3 h. -/
theorem C1_entitlement_block_witness :
    foreignResult exCfg exSegsC1 = .ok (some (blockedEntry exSegsC1)) ∧
    (blockedEntry exSegsC1).band = "blocked_cz>=5_foreign<5" ∧
    (blockedEntry exSegsC1).amount = 0 ∧
    (blockedEntry exSegsC1).amount_czk = 0 :=
  C1_entitlement_block exCfg exSegsC1
    (by rw [show czHoursOf exSegsC1 = 6 from rfl]; norm_num)
    (by rw [show foreignSegsOf exSegsC1 = [⟨"DE", 3, 1⟩] from rfl]; simp)
    (by norm_num [totalForeignHours, show foreignSegsOf exSegsC1 = [⟨"DE", 3, 1⟩] from rfl])

/-- C7: for a day that computes a foreign per-diem (≥ 1 foreign segment, not
entitlement-blocked, `dom` the dominant foreign country): (a) a missing rate
entry for `dom.country` fails with `missingRateConfig` whatever the band;
(b) with a rate entry and total foreign hours under the 1-hour band the
result is the `"under_1"` zero placeholder (no exchange-rate lookup, so no
`missingExchangeRate` error, for every configuration); (c) with a rate entry
and a real band, a missing exchange rate for the currency fails with
`missingExchangeRate`; (d) when both lookups succeed the entry's
home-currency amount is `round2 (amount * fx)`. -/
theorem C7_foreign_errors (cfg : RateCfg) (segs : List CSeg) (dom : CSeg)
    (hne : foreignSegsOf segs ≠ [])
    (hnb : ¬(5 ≤ czHoursOf segs ∧ totalForeignHours segs < 5))
    (hdom : dominant (foreignSegsOf segs) = some dom) :
    (cfg.foreign_rates dom.country = none →
      foreignResult cfg segs = .error (.missingRateConfig dom.country)) ∧
    (∀ rate cur, cfg.foreign_rates dom.country = some (rate, cur) →
      (totalForeignHours segs < 1 →
        foreignResult cfg segs = .ok (some (under1Entry dom.country cur rate segs)) ∧
        (under1Entry dom.country cur rate segs).band = "under_1" ∧
        (under1Entry dom.country cur rate segs).amount = 0 ∧
        (under1Entry dom.country cur rate segs).amount_czk = 0) ∧
      (∀ bandk, foreign_band (totalForeignHours segs) = some bandk →
        cfg.rates_czk cur = none →
        foreignResult cfg segs = .error (.missingExchangeRate cur)) ∧
      (∀ bandk fx, foreign_band (totalForeignHours segs) = some bandk →
        cfg.rates_czk cur = some fx →
        foreignResult cfg segs =
          .ok (some (computedEntry cfg dom.country cur rate bandk fx segs)) ∧
        (computedEntry cfg dom.country cur rate bandk fx segs).amount_czk =
          round2 ((computedEntry cfg dom.country cur rate bandk fx segs).amount * fx))) := by
  have hstep : foreignResult cfg segs =
      (match cfg.foreign_rates dom.country with
        | none => Except.error (PDError.missingRateConfig dom.country)
        | some rc =>
          match foreign_band (totalForeignHours segs) with
          | none => Except.ok (some (under1Entry dom.country rc.2 rc.1 segs))
          | some bandk =>
            match cfg.rates_czk rc.2 with
            | none => Except.error (PDError.missingExchangeRate rc.2)
            | some fx =>
              Except.ok (some (computedEntry cfg dom.country rc.2 rc.1 bandk fx segs))) := by
    unfold foreignResult
    rw [if_neg hne, if_neg hnb, hdom]
  constructor
  · intro hmiss
    rw [hstep, hmiss]
  · intro rate cur hrc
    refine ⟨?_, ?_, ?_⟩
    · intro h1
      have hfb : foreign_band (totalForeignHours segs) = none := by
        unfold foreign_band
        rw [if_pos h1]
      exact ⟨by rw [hstep, hrc, hfb], rfl, rfl, rfl⟩
    · intro bandk hband hfx
      rw [hstep, hrc, hband]
      show (match cfg.rates_czk cur with
        | none => Except.error (PDError.missingExchangeRate cur)
        | some fx =>
          Except.ok (some (computedEntry cfg dom.country cur rate bandk fx segs))) =
        Except.error (PDError.missingExchangeRate cur)
      rw [hfx]
    · intro bandk fx hband hfx
      refine ⟨?_, rfl⟩
      rw [hstep, hrc, hband]
      show (match cfg.rates_czk cur with
        | none => Except.error (PDError.missingExchangeRate cur)
        | some fx =>
          Except.ok (some (computedEntry cfg dom.country cur rate bandk fx segs))) =
        Except.ok (some (computedEntry cfg dom.country cur rate bandk fx segs))
      rw [hfx]

/-- Witness for `C7_foreign_errors`: its success branch (d) on the concrete
day CZ 8 h / DE 12 h with rate 45 EUR and exchange rate 25. -/
theorem C7_foreign_errors_witness :
    foreignResult exCfg exSegsC7 =
      .ok (some (computedEntry exCfg "DE" "EUR" 45 "12_to_18" 25 exSegsC7)) ∧
    (computedEntry exCfg "DE" "EUR" 45 "12_to_18" 25 exSegsC7).amount_czk =
      round2 ((computedEntry exCfg "DE" "EUR" 45 "12_to_18" 25 exSegsC7).amount * 25) :=
  ((C7_foreign_errors exCfg exSegsC7 ⟨"DE", 12, 0⟩
      (by rw [show foreignSegsOf exSegsC7 = [⟨"DE", 12, 0⟩] from rfl]; simp)
      (by rw [show czHoursOf exSegsC7 = 8 from rfl]
          norm_num [totalForeignHours, show foreignSegsOf exSegsC7 = [⟨"DE", 12, 0⟩] from rfl])
      rfl).2 45 "EUR" rfl).2.2 "12_to_18" 25
    (by norm_num [foreign_band, totalForeignHours,
          show foreignSegsOf exSegsC7 = [⟨"DE", 12, 0⟩] from rfl]) rfl

/-- C2 counterexample: for the day `[exW0, exW1]` whose first waypoint has
the terminal marker `"end"`, the aggregator still adds the pair's 2 hours to
CZ, while the claimed continuation-only rule would add nothing. -/
theorem C2_counterexample :
    dayTimeHours [exW0, exW1] "CZ" = 2 ∧
    dayTimeHoursSpecContinuation [exW0, exW1] "CZ" = 0 ∧
    dayTimeHours [exW0, exW1] "CZ" ≠ dayTimeHoursSpecContinuation [exW0, exW1] "CZ" := by
  have hc : normC "CZ" = "CZ" := by decide
  have hn : normNext "end" = "end" := by decide
  have hph : pairHours 800 1000 = 2 := by norm_num [pairHours, hmMin]
  have h1 : dayTimeHours [exW0, exW1] "CZ" = 2 := by
    simp [dayTimeHours, exW0, exW1, hc, hph]
  have h2 : dayTimeHoursSpecContinuation [exW0, exW1] "CZ" = 0 := by
    simp [dayTimeHoursSpecContinuation, exW0, exW1, hc, hn]
  refine ⟨h1, h2, ?_⟩
  rw [h1, h2]
  norm_num

/-- C2 (amended): the time-accumulation walk of `build_trip_from_waypoints`
never inspects the `next` transition marker: a pair contributes its duration
to `w[i].country` unconditionally (terminal markers included), so the
per-country accumulated time is invariant under any rewriting of the `next`
fields, and each cons step adds exactly the pair's duration for the head's
country. -/
theorem C2_time_ignores_next :
    (∀ (wps : List Waypoint) (c : String) (f : Waypoint → String),
      dayTimeHours (wps.map (fun w => { w with next := f w })) c = dayTimeHours wps c) ∧
    (∀ (w x : Waypoint) (rest : List Waypoint) (c : String),
      dayTimeHours (w :: x :: rest) c =
        (if normC w.country = c ∧ normC w.country ≠ "" then pairHours w.time x.time
         else 0) + dayTimeHours (x :: rest) c) := by
  constructor
  · intro wps c f
    induction wps with
    | nil => rfl
    | cons w rest ih =>
      cases rest with
      | nil => rfl
      | cons x rest' =>
        simp only [List.map, dayTimeHours] at ih ⊢
        rw [ih]
  · intro w x rest c
    rfl

theorem collapse_spec (w w' : Waypoint) (run rest : List Waypoint)
    (hrun : ∀ u ∈ run, normNext u.next = "drive")
    (hw' : normNext w'.next ≠ "drive") :
    collapse w (run ++ w' :: rest) =
      (chainMinutes (w :: (run ++ [w'])), chainKm (w :: (run ++ [w'])), w', w' :: rest) := by
  induction run generalizing w with
  | nil =>
    simp only [List.nil_append]
    rw [collapse.eq_def]
    simp only
    rw [if_neg hw']
    simp [chainMinutes, chainKm]
  | cons u run' ih =>
    have hu : normNext u.next = "drive" := hrun u (by simp)
    have hrun' : ∀ v ∈ run', normNext v.next = "drive" := fun v hv => hrun v (by simp [hv])
    simp only [List.cons_append]
    rw [collapse.eq_def]
    simp only
    rw [if_pos hu]
    cases hl : run' ++ w' :: rest with
    | nil => exact absurd hl (by simp)
    | cons y rest' =>
      simp only
      rw [← hl, ih u hrun']
      simp [chainMinutes, chainKm]

/-- C4: for every maximal run of `N ≥ 1` consecutive drive-marked waypoints
followed by its destination waypoint `w'` (the run's last visited waypoint,
whose marker is no longer `"drive"`), `buildDayAux` emits exactly one drive
segment — start at the first run waypoint's time and place, end at `w'`'s
time and place, country the destination's (`w'`'s) country, distance the sum
of the `N` arrival-waypoint km values and duration the sum of the `N`
per-hop durations — and resumes processing at `w'`. -/
theorem C4_drive_collapse (mmdd : Nat) (run : List Waypoint) (w' : Waypoint)
    (rest : List Waypoint) (hne : run ≠ [])
    (hrun : ∀ u ∈ run, normNext u.next = "drive")
    (hw' : normNext w'.next ≠ "drive") :
    buildDayAux mmdd (run ++ w' :: rest) =
      mkDriveSeg mmdd (run.head hne) w'
          (chainMinutes (run ++ [w'])) (chainKm (run ++ [w'])) ::
        buildDayAux mmdd (w' :: rest) := by
  obtain ⟨w, run₀, rfl⟩ : ∃ w run₀, run = w :: run₀ := by
    cases run with
    | nil => exact absurd rfl hne
    | cons a b => exact ⟨a, b, rfl⟩
  have hw : normNext w.next = "drive" := hrun w (by simp)
  have hwm : ¬ normNext w.next = "meeting" := by rw [hw]; decide
  have hcol := collapse_spec w w' run₀ rest (fun u hu => hrun u (by simp [hu])) hw'
  cases run₀ with
  | nil =>
    simp only [List.nil_append, List.cons_append] at hcol ⊢
    rw [buildDayAux.eq_def]
    simp only
    rw [if_neg hwm, if_pos hw, hcol]
    rfl
  | cons u run₁ =>
    simp only [List.cons_append] at hcol ⊢
    rw [buildDayAux.eq_def]
    simp only
    rw [if_neg hwm, if_pos hw, hcol]
    rfl

/-- Drive-run waypoints for the C4 witness. -/
def exRunC4 : List Waypoint :=
  [{ time := 700, place := "Praha", country := "CZ", meals := 0, next := "drive",
     km := 0, r_d := 0 },
   { time := 900, place := "Linz", country := "AT", meals := 0, next := "drive",
     km := 180, r_d := 0 }]

/-- Destination waypoint of the C4 witness run. -/
def exDestC4 : Waypoint :=
  { time := 1100, place := "Udine", country := "IT", meals := 1, next := "meeting",
    km := 240, r_d := 40 }

/-- Trailing waypoint after the C4 witness run. -/
def exTailC4 : Waypoint :=
  { time := 1300, place := "Udine", country := "IT", meals := 0, next := "end",
    km := 0, r_d := 0 }

/-- Witness for `C4_drive_collapse`: a 2-hop drive run collapses into one
segment ahead of the remaining day. -/
theorem C4_drive_collapse_witness :
    buildDayAux 113 (exRunC4 ++ exDestC4 :: [exTailC4]) =
      mkDriveSeg 113 (exRunC4.head (by decide)) exDestC4
          (chainMinutes (exRunC4 ++ [exDestC4])) (chainKm (exRunC4 ++ [exDestC4])) ::
        buildDayAux 113 (exDestC4 :: [exTailC4]) :=
  C4_drive_collapse 113 exRunC4 exDestC4 [exTailC4] (by decide) (by decide) (by decide)

/-- C8: when the trip has at least one meeting, every drive segment whose end
key is at-or-before the first meeting's start key is in `travel_there`, every
drive segment whose start key is at-or-after the last meeting's end key is in
`travel_home`, a drive segment satisfying both is in both groups, the
detailed group is exactly the unclassified segments (all meetings included),
and it is chronologically ordered (a permutation of the unclassified
segments sorted by start key). -/
theorem C8_travel_split (segs : List Seg) (fmk lmk : Nat)
    (hf : firstMeetKey segs = some fmk) (hl : lastMeetKey segs = some lmk) :
    (∀ s ∈ segs, s.type = "drive" → key s.mmdd s.end_hhmm ≤ fmk →
      s ∈ travel_there segs) ∧
    (∀ s ∈ segs, s.type = "drive" → lmk ≤ key s.mmdd s.start_hhmm →
      s ∈ travel_home segs) ∧
    (∀ s ∈ segs, s.type = "drive" → key s.mmdd s.end_hhmm ≤ fmk →
      lmk ≤ key s.mmdd s.start_hhmm →
      s ∈ travel_there segs ∧ s ∈ travel_home segs) ∧
    detailedUnsorted segs = segs.filter (fun s =>
      !(s.type == "drive" &&
        (decide (key s.mmdd s.end_hhmm ≤ fmk) ||
          decide (lmk ≤ key s.mmdd s.start_hhmm)))) ∧
    (∀ s ∈ segs, s.type = "meeting" → s ∈ detailed segs) ∧
    List.Pairwise (fun a b => key a.mmdd a.start_hhmm ≤ key b.mmdd b.start_hhmm)
      (detailed segs) ∧
    (detailed segs).Perm (detailedUnsorted segs) := by
  have tmem : ∀ s : Seg, s ∈ travel_there segs ↔
      s ∈ segs ∧ s.type = "drive" ∧ key s.mmdd s.end_hhmm ≤ fmk := by
    intro s
    simp [travel_there, hf, List.mem_filter, and_assoc]
  have hmem : ∀ s : Seg, s ∈ travel_home segs ↔
      s ∈ segs ∧ s.type = "drive" ∧ lmk ≤ key s.mmdd s.start_hhmm := by
    intro s
    simp [travel_home, hl, List.mem_filter, and_assoc]
  have hclass : ∀ s ∈ segs,
      ((travel_there segs ++ travel_home segs).any
        fun t => decide (tupleOf t = tupleOf s)) =
      (s.type == "drive" &&
        (decide (key s.mmdd s.end_hhmm ≤ fmk) ||
          decide (lmk ≤ key s.mmdd s.start_hhmm))) := by
    intro s hs
    rw [Bool.eq_iff_iff]
    simp only [List.any_eq_true, List.mem_append, decide_eq_true_eq,
      Bool.and_eq_true, Bool.or_eq_true, beq_iff_eq]
    constructor
    · rintro ⟨t, ht | ht, htup⟩
      · obtain ⟨-, htd, htk⟩ := (tmem t).mp ht
        obtain ⟨h1, h2, h3, h4⟩ : t.mmdd = s.mmdd ∧ t.start_hhmm = s.start_hhmm ∧
            t.end_hhmm = s.end_hhmm ∧ t.type = s.type := by
          simpa [tupleOf, Prod.ext_iff] using htup
        rw [h4] at htd
        rw [h1, h3] at htk
        exact ⟨htd, Or.inl htk⟩
      · obtain ⟨-, htd, htk⟩ := (hmem t).mp ht
        obtain ⟨h1, h2, h3, h4⟩ : t.mmdd = s.mmdd ∧ t.start_hhmm = s.start_hhmm ∧
            t.end_hhmm = s.end_hhmm ∧ t.type = s.type := by
          simpa [tupleOf, Prod.ext_iff] using htup
        rw [h4] at htd
        rw [h1, h2] at htk
        exact ⟨htd, Or.inr htk⟩
    · rintro ⟨hd, hk | hk⟩
      · exact ⟨s, Or.inl ((tmem s).mpr ⟨hs, hd, hk⟩), rfl⟩
      · exact ⟨s, Or.inr ((hmem s).mpr ⟨hs, hd, hk⟩), rfl⟩
  have hdeu : detailedUnsorted segs = segs.filter (fun s =>
      !(s.type == "drive" &&
        (decide (key s.mmdd s.end_hhmm ≤ fmk) ||
          decide (lmk ≤ key s.mmdd s.start_hhmm)))) := by
    unfold detailedUnsorted
    exact List.filter_congr fun s hs => by rw [hclass s hs]
  refine ⟨?_, ?_, ?_, hdeu, ?_, ?_, List.mergeSort_perm _ _⟩
  · exact fun s hs hd hk => (tmem s).mpr ⟨hs, hd, hk⟩
  · exact fun s hs hd hk => (hmem s).mpr ⟨hs, hd, hk⟩
  · exact fun s hs hd hk1 hk2 =>
      ⟨(tmem s).mpr ⟨hs, hd, hk1⟩, (hmem s).mpr ⟨hs, hd, hk2⟩⟩
  · intro s hs hm
    have : s ∈ detailedUnsorted segs := by
      rw [hdeu, List.mem_filter]
      refine ⟨hs, ?_⟩
      have : (s.type == "drive") = false := by
        rw [hm]
        decide
      simp [this]
    exact (List.mem_mergeSort).mpr this
  · have hs := @List.sorted_mergeSort Seg
      (fun a b : Seg => decide (key a.mmdd a.start_hhmm ≤ key b.mmdd b.start_hhmm))
      (fun a b c hab hbc => by
        simp only [decide_eq_true_eq] at hab hbc ⊢
        exact le_trans hab hbc)
      (fun a b => by
        simp only [Bool.or_eq_true, decide_eq_true_eq]
        exact Nat.le_total _ _)
      (detailedUnsorted segs)
    exact hs.imp fun h => by simpa using h

/-- Concrete segments for the C8 witness: one drive before the meeting, the
meeting, one drive after it. -/
def exSegsC8 : List Seg :=
  [{ mmdd := 110, start_hhmm := 700, end_hhmm := 800, type := "drive",
     country := "CZ", place_from := "Praha", place_to := "Brno", minutes := 60,
     km := 200, rd := 0 },
   { mmdd := 110, start_hhmm := 800, end_hhmm := 1000, type := "meeting",
     country := "CZ", place_from := "Brno", place_to := "Brno", minutes := 120,
     km := 0, rd := 50 },
   { mmdd := 110, start_hhmm := 1000, end_hhmm := 1100, type := "drive",
     country := "CZ", place_from := "Brno", place_to := "Praha", minutes := 60,
     km := 200, rd := 0 }]

/-- Witness for `C8_travel_split` on `exSegsC8`. -/
theorem C8_travel_split_witness :
    (∀ s ∈ exSegsC8, s.type = "drive" → key s.mmdd s.end_hhmm ≤ 1100800 →
      s ∈ travel_there exSegsC8) ∧
    (∀ s ∈ exSegsC8, s.type = "drive" → 1101000 ≤ key s.mmdd s.start_hhmm →
      s ∈ travel_home exSegsC8) ∧
    (∀ s ∈ exSegsC8, s.type = "drive" → key s.mmdd s.end_hhmm ≤ 1100800 →
      1101000 ≤ key s.mmdd s.start_hhmm →
      s ∈ travel_there exSegsC8 ∧ s ∈ travel_home exSegsC8) ∧
    detailedUnsorted exSegsC8 = exSegsC8.filter (fun s =>
      !(s.type == "drive" &&
        (decide (key s.mmdd s.end_hhmm ≤ 1100800) ||
          decide (1101000 ≤ key s.mmdd s.start_hhmm)))) ∧
    (∀ s ∈ exSegsC8, s.type = "meeting" → s ∈ detailed exSegsC8) ∧
    List.Pairwise (fun a b => key a.mmdd a.start_hhmm ≤ key b.mmdd b.start_hhmm)
      (detailed exSegsC8) ∧
    (detailed exSegsC8).Perm (detailedUnsorted exSegsC8) :=
  C8_travel_split exSegsC8 1100800 1101000 (by decide) (by decide)

/-- C9 (code-bug evaluation): the drive/meeting rollover of
`build_segments` (`b.replace(day=b.day + 1)`) fails with a `ValueError`
(`none`) for a midnight-crossing pair recorded on the last day of a month
(2026-01-31, 23:00 → 01:00), while the same pair on 2026-01-30 yields
120 minutes, and the Waypoint Aggregator's `timedelta`-based rollover
(src/main_new.py lines 104-107) succeeds on any date with a non-negative
duration of 2 hours. -/
theorem C9_month_end_rollover :
    tsSegMinutesOnDate ⟨2026, 1, 31⟩ 2300 100 = none ∧
    tsSegMinutesOnDate ⟨2026, 1, 30⟩ 2300 100 = some 120 ∧
    pairHours 2300 100 = 2 ∧
    0 ≤ pairHours 2300 100 := by
  refine ⟨by decide, by decide, ?_, ?_⟩
  · norm_num [pairHours, hmMin]
  · norm_num [pairHours, hmMin]

/-- C10: a day with zero waypoints is skipped by both builders (no
CountrySegments, no TravelSegments); a day with exactly one waypoint (with a
non-empty country) yields no timesheet segments and no accumulated time, yet
the waypoint aggregator still emits that country's CountrySegment carrying
the waypoint's meals; the timesheet builder skips the day entirely. -/
theorem C10_short_days (mmdd : Nat) (w : Waypoint) (hc : normC w.country ≠ "") :
    build_trip_from_waypoints [(mmdd, [])] = [] ∧
    build_segments [(mmdd, [])] = [] ∧
    build_trip_from_waypoints [(mmdd, [w])] =
      [⟨mmdd, [⟨normC w.country, 0, w.meals⟩]⟩] ∧
    build_segments [(mmdd, [w])] = [] := by
  have hb : (normC w.country != "") = true := by simpa using hc
  refine ⟨?_, ?_, ?_, ?_⟩
  · unfold build_trip_from_waypoints
    rw [List.mergeSort_singleton]
    rfl
  · unfold build_segments
    rw [List.mergeSort_singleton]
    rfl
  · unfold build_trip_from_waypoints
    rw [List.mergeSort_singleton]
    norm_num [dayAgg, dayCountries, dayMeals, dayTimeHours, firstDedup, hb]
  · unfold build_segments
    rw [List.mergeSort_singleton]
    rfl

/-- Witness for `C10_short_days` with day key 115 and the waypoint `exW0`. -/
theorem C10_short_days_witness :
    build_trip_from_waypoints [(115, [])] = [] ∧
    build_segments [(115, [])] = [] ∧
    build_trip_from_waypoints [(115, [exW0])] =
      [⟨115, [⟨normC exW0.country, 0, exW0.meals⟩]⟩] ∧
    build_segments [(115, [exW0])] = [] :=
  C10_short_days 115 exW0 (by decide)

theorem aggregate_daily_nil : aggregate_daily [] = [] := by
  unfold aggregate_daily
  simp [firstDedup]

theorem aggregate_daily_singleton (s : Seg) :
    aggregate_daily [s] = [⟨s.mmdd, s.start_hhmm, s.end_hhmm, s.minutes, s.km⟩] := by
  unfold aggregate_daily
  simp [firstDedup, List.mergeSort_singleton]

theorem round2_round2 (x : ℚ) : round2 (round2 x) = round2 x := by
  unfold round2
  have h100 : ((100 : ℚ)) ≠ 0 := by norm_num
  rw [div_mul_cancel₀ _ h100, add_comm, Int.floor_add_int]
  norm_num

theorem exSegsC3_detailedRd : detailedRd exSegsC3 = exSegsC3.drop 1 := by
  have hdu : detailedUnsorted exSegsC3 = exSegsC3.drop 1 := by decide
  have hdet : detailed exSegsC3 = exSegsC3.drop 1 := by
    unfold detailed
    rw [hdu]
    exact List.mergeSort_of_sorted (by decide)
  unfold detailedRd
  rw [hdet]
  decide

theorem exSegsC3_avg : avgRdPct exSegsC3 = 3333 / 100 := by
  have hstm : secondTotalMinutes exSegsC3 = 180 := by
    unfold secondTotalMinutes
    rw [exSegsC3_detailedRd]
    decide
  have hstrm : secondTotalRdMinutes exSegsC3 = 60 := by
    unfold secondTotalRdMinutes
    rw [exSegsC3_detailedRd]
    norm_num [exSegsC3, round2]
  unfold avgRdPct
  rw [hstm, hstrm, if_pos (by norm_num)]
  norm_num [round2]

theorem exSegsC3_there_days : there_days exSegsC3 = [⟨110, 700, 800, 60, 50⟩] := by
  unfold there_days
  rw [show travel_there exSegsC3 = [exSegsC3.headD default] from by decide]
  rw [aggregate_daily_singleton]
  decide

theorem exSegsC3_home_days : home_days exSegsC3 = [] := by
  unfold home_days
  rw [show travel_home exSegsC3 = [] from by decide]
  exact aggregate_daily_nil

/-- C3 counterexample: on the trip `exSegsC3` (meetings of 60 min at rd 100
and 60 min at rd 0, with a 60-min drive between them in the detailed group)
the travel-there row is written with rd_percent 33.33 — the average over the
whole detailed group including the drive's minutes — while the claim's
meetings-only weighted average is 50. -/
theorem C3_counterexample :
    (travelRows exSegsC3).map (fun r => r.rd_pct) = [3333 / 100] ∧
    specMeetingWeightedRdPct exSegsC3 = 50 ∧
    ((3333 : ℚ) / 100) ≠ 50 := by
  refine ⟨?_, ?_, by norm_num⟩
  · unfold travelRows
    rw [exSegsC3_there_days, exSegsC3_home_days, exSegsC3_avg]
    simp only [List.append_nil, List.map]
    norm_num [write_row, round2]
  · unfold specMeetingWeightedRdPct
    rw [show exSegsC3.filter (fun s => s.type == "meeting") =
      [exSegsC3.getD 1 default, exSegsC3.getD 3 default] from by decide]
    norm_num [exSegsC3]

/-- C3 (amended): every travel-there and travel-home row is written with
`rd_pct = avg_rd_pct` — the time-weighted average R&D percentage over the
whole detailed group (meeting segments with their own rd, detailed drive
segments with the next meeting's rd, drive minutes included in both sums),
not over meeting segments only — and `rd_minutes = round2(minutes *
avg_rd_pct / 100)`. -/
theorem C3_travel_rows_rd (segs : List Seg) (r : Row) (hr : r ∈ travelRows segs) :
    r.rd_pct = avgRdPct segs ∧
    r.rd_minutes = round2 ((r.minutes : ℚ) * (avgRdPct segs / 100)) := by
  obtain ⟨d, hd, rfl⟩ := List.mem_map.mp hr
  constructor
  · show round2 (avgRdPct segs) = avgRdPct segs
    unfold avgRdPct
    split_ifs
    · exact round2_round2 _
    · unfold round2
      norm_num
  · rfl

/-- Witness for `C3_travel_rows_rd`: the travel-there row of `exSegsC3`. -/
theorem C3_travel_rows_rd_witness :
    (write_row (avgRdPct exSegsC3) ⟨110, 700, 800, 60, 50⟩).rd_pct = avgRdPct exSegsC3 ∧
    (write_row (avgRdPct exSegsC3) ⟨110, 700, 800, 60, 50⟩).rd_minutes =
      round2 (((write_row (avgRdPct exSegsC3) ⟨110, 700, 800, 60, 50⟩).minutes : ℚ) *
        (avgRdPct exSegsC3 / 100)) :=
  C3_travel_rows_rd exSegsC3 _ (by
    unfold travelRows
    rw [exSegsC3_there_days, exSegsC3_home_days]
    simp)

end TravelReport
